import Mathlib

/-!
Verification development for the trident syscall stubs layer
(`src/trident-syscall-stubs-v1/src/syscall_stubs.rs`).

The development shallowly embeds the syscall-stub handler: the error
taxonomy translator, the sysvar accessor, the return-data channel, the stub
registry, and the cross-invocation bridge (`sol_invoke_signed`) with its
copy-in / execute / copy-out phases.  Host-environment collaborators
(the invoke context, the sysvar cache, the account-permission checks of
`BorrowedAccount`, the instruction-execution engine) are external to the
repository and are modelled as explicit parameters; everything the stub
layer itself does is transcribed from the source.
-/

namespace Trident

/-- Public keys are opaque identifiers; `Pubkey::default()` is `0`. -/
abbrev Pubkey := Nat

/-- Raw account data: a byte buffer. -/
abbrev Bytes := List Nat

/-- The host-side error enumeration (`solana_sdk::instruction::InstructionError`),
an external type consumed by the translator.  Payload-free variants plus the
`u32`-carrying `Custom` and the message-carrying `BorshIoError`. -/
inductive InstructionError where
  | GenericError
  | InvalidArgument
  | InvalidInstructionData
  | InvalidAccountData
  | AccountDataTooSmall
  | InsufficientFunds
  | IncorrectProgramId
  | MissingRequiredSignature
  | AccountAlreadyInitialized
  | UninitializedAccount
  | UnbalancedInstruction
  | ModifiedProgramId
  | ExternalAccountLamportSpend
  | ExternalAccountDataModified
  | ReadonlyLamportChange
  | ReadonlyDataModified
  | DuplicateAccountIndex
  | ExecutableModified
  | RentEpochModified
  | NotEnoughAccountKeys
  | AccountDataSizeChanged
  | AccountNotExecutable
  | AccountBorrowFailed
  | AccountBorrowOutstanding
  | DuplicateAccountOutOfSync
  | Custom (code : Nat)
  | InvalidError
  | ExecutableDataModified
  | ExecutableLamportChange
  | ExecutableAccountNotRentExempt
  | UnsupportedProgramId
  | CallDepth
  | MissingAccount
  | ReentrancyNotAllowed
  | MaxSeedLengthExceeded
  | InvalidSeeds
  | InvalidRealloc
  | ComputationalBudgetExceeded
  | PrivilegeEscalation
  | ProgramEnvironmentSetupFailure
  | ProgramFailedToComplete
  | ProgramFailedToCompile
  | Immutable
  | IncorrectAuthority
  | BorshIoError (msg : String)
  | AccountNotRentExempt
  | InvalidAccountOwner
  | ArithmeticOverflow
  | UnsupportedSysvar
  | IllegalOwner
  | MaxAccountsDataAllocationsExceeded
  | MaxAccountsDataGrowthExceeded
  | MaxInstructionTraceLengthExceeded
  | BuiltinProgramsMustConsumeComputeUnits

/-- The guest-side error enumeration
(`solana_program::program_error::ProgramError`), an external type produced by
the translator. -/
inductive ProgramError where
  | Custom (code : Nat)
  | InvalidArgument
  | InvalidInstructionData
  | InvalidAccountData
  | AccountDataTooSmall
  | InsufficientFunds
  | IncorrectProgramId
  | MissingRequiredSignature
  | AccountAlreadyInitialized
  | UninitializedAccount
  | NotEnoughAccountKeys
  | AccountBorrowFailed
  | MaxSeedLengthExceeded
  | InvalidSeeds
  | BorshIoError (msg : String)
  | AccountNotRentExempt
  | UnsupportedSysvar
  | IllegalOwner
  | MaxAccountsDataAllocationsExceeded
  | InvalidRealloc
  | MaxInstructionTraceLengthExceeded
  | BuiltinProgramsMustConsumeComputeUnits
  | InvalidAccountOwner
  | ArithmeticOverflow
  | Immutable
  | IncorrectAuthority

/-- `TridentTryFrom<InstructionError> for ProgramError` — the error taxonomy
translator, transcribed arm for arm from `try_from_custom`
(`syscall_stubs.rs`, lines 301-339).  The wildcard arm returns the unmapped
host error unchanged. -/
def ProgramError.try_from_custom (error : InstructionError) :
    Except InstructionError ProgramError :=
  match error with
  | .Custom err => .ok (.Custom err)
  | .InvalidArgument => .ok .InvalidArgument
  | .InvalidInstructionData => .ok .InvalidInstructionData
  | .InvalidAccountData => .ok .InvalidAccountData
  | .AccountDataTooSmall => .ok .AccountDataTooSmall
  | .InsufficientFunds => .ok .InsufficientFunds
  | .IncorrectProgramId => .ok .IncorrectProgramId
  | .MissingRequiredSignature => .ok .MissingRequiredSignature
  | .AccountAlreadyInitialized => .ok .AccountAlreadyInitialized
  | .UninitializedAccount => .ok .UninitializedAccount
  | .NotEnoughAccountKeys => .ok .NotEnoughAccountKeys
  | .AccountBorrowFailed => .ok .AccountBorrowFailed
  | .MaxSeedLengthExceeded => .ok .MaxSeedLengthExceeded
  | .InvalidSeeds => .ok .InvalidSeeds
  | .BorshIoError err => .ok (.BorshIoError err)
  | .AccountNotRentExempt => .ok .AccountNotRentExempt
  | .UnsupportedSysvar => .ok .UnsupportedSysvar
  | .IllegalOwner => .ok .IllegalOwner
  | .MaxAccountsDataAllocationsExceeded => .ok .MaxAccountsDataAllocationsExceeded
  | .InvalidRealloc => .ok .InvalidRealloc
  | .MaxInstructionTraceLengthExceeded => .ok .MaxInstructionTraceLengthExceeded
  | .BuiltinProgramsMustConsumeComputeUnits =>
      .ok .BuiltinProgramsMustConsumeComputeUnits
  | .InvalidAccountOwner => .ok .InvalidAccountOwner
  | .ArithmeticOverflow => .ok .ArithmeticOverflow
  | _ => .error error

/-- The fixed enumeration of host error kinds the translator maps: exactly the
non-wildcard arms of `try_from_custom`. -/
def isListed (error : InstructionError) : Bool :=
  match error with
  | .Custom _ => true
  | .InvalidArgument => true
  | .InvalidInstructionData => true
  | .InvalidAccountData => true
  | .AccountDataTooSmall => true
  | .InsufficientFunds => true
  | .IncorrectProgramId => true
  | .MissingRequiredSignature => true
  | .AccountAlreadyInitialized => true
  | .UninitializedAccount => true
  | .NotEnoughAccountKeys => true
  | .AccountBorrowFailed => true
  | .MaxSeedLengthExceeded => true
  | .InvalidSeeds => true
  | .BorshIoError _ => true
  | .AccountNotRentExempt => true
  | .UnsupportedSysvar => true
  | .IllegalOwner => true
  | .MaxAccountsDataAllocationsExceeded => true
  | .InvalidRealloc => true
  | .MaxInstructionTraceLengthExceeded => true
  | .BuiltinProgramsMustConsumeComputeUnits => true
  | .InvalidAccountOwner => true
  | .ArithmeticOverflow => true
  | _ => false

/-! ## Data model for the cross-invocation bridge -/

/-- A guest account view (`solana_sdk::account_info::AccountInfo`): a
caller-owned mutable window over one account. -/
structure AccountInfo where
  key : Pubkey
  lamports : Nat
  owner : Pubkey
  data : Bytes
  is_writable : Bool
  is_signer : Bool
deriving DecidableEq

/-- A host-side canonical account (the state behind a `BorrowedAccount`). -/
structure AccountSharedData where
  lamports : Nat
  owner : Pubkey
  data : Bytes
deriving DecidableEq

/-- One entry of the expanded instruction-account list produced by
`prepare_instruction`. -/
structure InstructionAccount where
  index_in_transaction : Nat
  index_in_caller : Nat
  is_writable : Bool
deriving DecidableEq

/-- Host-side permission checks of `BorrowedAccount` (`set_lamports`,
`can_data_be_resized`, `can_data_be_changed`, `set_owner`): external
collaborator behaviour, modelled as functions returning `none` on success
and `some e` when the host rejects the operation with error `e`. -/
structure HostPolicy where
  set_lamports : AccountSharedData → Nat → Option InstructionError
  can_data_be_resized : AccountSharedData → Nat → Option InstructionError
  can_data_be_changed : AccountSharedData → Option InstructionError
  set_owner : AccountSharedData → Pubkey → Option InstructionError

/-- Reasons the stub layer aborts the process (Rust `panic!` / `.unwrap()`):
an unmapped error fed to the translator, a detected mutation of immutable
account data, a signer-seed derivation failure, or an out-of-range direct
index. -/
inductive PanicReason where
  | unmapped (e : InstructionError)
  | dataViolation (e : InstructionError)
  | seedDerivation
  | indexOutOfBounds

/-- A non-success outcome of a bridge step: a guest-visible error or an
abort. -/
inductive Failure where
  | err (e : ProgramError)
  | fatal (r : PanicReason)

/-- Overall outcome of `sol_invoke_signed`. -/
inductive Status where
  | ok
  | err (e : ProgramError)
  | fatal (r : PanicReason)

/-- The idiom `ProgramError::try_from_custom(err).unwrap_or_else(panic)`:
a mapped host error becomes a guest-visible error, an unmapped one aborts. -/
def translateErr (e : InstructionError) : Failure :=
  match ProgramError.try_from_custom e with
  | .ok p => .err p
  | .error e2 => .fatal (.unmapped e2)

def Failure.toStatus : Failure → Status
  | .err e => .err e
  | .fatal r => .fatal r

/-- A host-state write performed during copy-in, tagged with the account's
position in the caller's account list. -/
inductive SyncEvent where
  | setLamports (index_in_caller : Nat) (v : Nat)
  | setData (index_in_caller : Nat) (d : Bytes)
  | setOwner (index_in_caller : Nat) (o : Pubkey)
deriving DecidableEq

def SyncEvent.isOwner : SyncEvent → Bool
  | .setOwner _ _ => true
  | _ => false

def SyncEvent.isLamports : SyncEvent → Bool
  | .setLamports _ _ => true
  | _ => false

def SyncEvent.isData : SyncEvent → Bool
  | .setData _ _ => true
  | _ => false

def SyncEvent.account : SyncEvent → Nat
  | .setLamports i _ => i
  | .setData i _ => i
  | .setOwner i _ => i

/-! ## Copy-in (guest → host), transcribed from lines 147-204 -/

/-- Lamport synchronization (lines 169-175): if the balances differ, set the
host balance to the guest's; a host rejection is translated. -/
def lamportsStep (pol : HostPolicy) (idx : Nat) (host : AccountSharedData)
    (g : AccountInfo) : List SyncEvent × Except Failure AccountSharedData :=
  if host.lamports = g.lamports then ([], .ok host)
  else
    match pol.set_lamports host g.lamports with
    | some e => ([.setLamports idx g.lamports], .error (translateErr e))
    | none => ([.setLamports idx g.lamports], .ok { host with lamports := g.lamports })

/-- `can_data_be_resized(len).and_then(|_| can_data_be_changed())`
(lines 179-182). -/
def dataChecks (pol : HostPolicy) (host : AccountSharedData) (newLen : Nat) :
    Option InstructionError :=
  match pol.can_data_be_resized host newLen with
  | some e => some e
  | none => pol.can_data_be_changed host

/-- Data synchronization (lines 177-192): when the host permits both a resize
and a change, replace host data with the guest's; when the host forbids the
change and the bytes differ, abort (`panic!`); when they are equal, do
nothing. -/
def dataStep (pol : HostPolicy) (idx : Nat) (host : AccountSharedData)
    (g : AccountInfo) : List SyncEvent × Except Failure AccountSharedData :=
  match dataChecks pol host g.data.length with
  | none => ([.setData idx g.data], .ok { host with data := g.data })
  | some e =>
      if host.data = g.data then ([], .ok host)
      else ([], .error (.fatal (.dataViolation e)))

/-- Owner synchronization (lines 193-200), run after lamports and data: if the
owners differ, set the host owner to the guest's declared owner. -/
def ownerStep (pol : HostPolicy) (idx : Nat) (host : AccountSharedData)
    (g : AccountInfo) : List SyncEvent × Except Failure AccountSharedData :=
  if host.owner = g.owner then ([], .ok host)
  else
    match pol.set_owner host g.owner with
    | some e => ([.setOwner idx g.owner], .error (translateErr e))
    | none => ([.setOwner idx g.owner], .ok { host with owner := g.owner })

/-- `account_infos.iter().position(|ai| ai.unsigned_key() == account_key)`
(lines 153-155), returning the index together with the account found. -/
def findAccountInfoAux (i : Nat) (guests : List AccountInfo) (key : Pubkey) :
    Option (Nat × AccountInfo) :=
  match guests with
  | [] => none
  | g :: rest => if g.key = key then some (i, g) else findAccountInfoAux (i + 1) rest key

def findAccountInfo (guests : List AccountInfo) (key : Pubkey) :
    Option (Nat × AccountInfo) :=
  findAccountInfoAux 0 guests key

/-- The copy-in loop body for one expanded instruction account
(lines 147-204): key lookup, guest-view lookup (absence is
`InstructionError::MissingAccount`), account borrow, then the lamports, data
and owner synchronization steps in that order; finally a writable account is
recorded as a (host position, guest-view index) pair.  Alongside the result
it returns the list of host writes performed, in order. -/
def copyInAccount (pol : HostPolicy) (txKeys : List Pubkey)
    (guests : List AccountInfo) (hosts : List AccountSharedData)
    (ia : InstructionAccount) :
    List SyncEvent × Except Failure (AccountSharedData × Option (Nat × Nat)) :=
  match txKeys[ia.index_in_transaction]? with
  | none => ([], .error (translateErr .NotEnoughAccountKeys))
  | some key =>
    match findAccountInfo guests key with
    | none => ([], .error (translateErr .MissingAccount))
    | some (gIdx, g) =>
      match hosts[ia.index_in_caller]? with
      | none => ([], .error (translateErr .NotEnoughAccountKeys))
      | some host0 =>
        match lamportsStep pol ia.index_in_caller host0 g with
        | (trL, .error f) => (trL, .error f)
        | (trL, .ok host1) =>
          match dataStep pol ia.index_in_caller host1 g with
          | (trD, .error f) => (trL ++ trD, .error f)
          | (trD, .ok host2) =>
            match ownerStep pol ia.index_in_caller host2 g with
            | (trO, .error f) => (trL ++ trD ++ trO, .error f)
            | (trO, .ok host3) =>
              (trL ++ trD ++ trO,
               .ok (host3,
                    if ia.is_writable then some (ia.index_in_caller, gIdx) else none))

/-- The copy-in loop over the expanded instruction-account list, in list
order, threading the host account table and accumulating the recorded
writable pairs and the write trace. -/
def copyInLoop (pol : HostPolicy) (txKeys : List Pubkey)
    (guests : List AccountInfo) :
    List InstructionAccount → List AccountSharedData →
    List SyncEvent × Except Failure (List AccountSharedData × List (Nat × Nat))
  | [], hosts => ([], .ok (hosts, []))
  | ia :: rest, hosts =>
    match copyInAccount pol txKeys guests hosts ia with
    | (tr, .error f) => (tr, .error f)
    | (tr, .ok (host2, rec?)) =>
      match copyInLoop pol txKeys guests rest (hosts.set ia.index_in_caller host2) with
      | (tr2, .error f) => (tr ++ tr2, .error f)
      | (tr2, .ok (hostsF, recs)) => (tr ++ tr2, .ok (hostsF, rec?.toList ++ recs))

/-! ## Copy-out (host → guest), transcribed from lines 235-264 -/

/-- `AccountInfo::realloc(new_len, false)`: resize the guest buffer to the
requested length (the fill value is irrelevant because the buffer is fully
overwritten immediately afterwards). -/
def listResize (l : Bytes) (n : Nat) : Bytes :=
  if n ≤ l.length then l.take n else l ++ List.replicate (n - l.length) 0

/-- `data.clone_from_slice(new_data)`: total overwrite, defined for buffers of
equal length (the Rust call requires it; the caller resizes first). -/
def cloneFromSlice (dst src : Bytes) : Bytes :=
  if dst.length = src.length then src else dst

/-- The per-pair copy-out body (lines 241-263): overwrite the guest lamports
with the host's, overwrite the guest owner in place when it differs, resize
the guest data buffer when the lengths differ, then copy the host data bytes
over it. -/
def syncGuest (host : AccountSharedData) (g : AccountInfo) : AccountInfo :=
  let g1 := { g with lamports := host.lamports }
  let g2 := if g1.owner ≠ host.owner then { g1 with owner := host.owner } else g1
  let g3 :=
    if g2.data.length ≠ host.data.length
    then { g2 with data := listResize g2.data host.data.length } else g2
  { g3 with data := cloneFromSlice g3.data host.data }

/-- The copy-out loop over the recorded (host position, guest-view index)
pairs, in recorded order (lines 235-264).  A failed host borrow is translated
and returned; the guest index is a direct Rust slice index, so an
out-of-range value would panic. -/
def copyOutLoop (hosts : List AccountSharedData) :
    List (Nat × Nat) → List AccountInfo → List AccountInfo × Option Failure
  | [], guests => (guests, none)
  | (hIdx, gIdx) :: rest, guests =>
    match hosts[hIdx]? with
    | none => (guests, some (translateErr .NotEnoughAccountKeys))
    | some host =>
      match guests[gIdx]? with
      | none => (guests, some (.fatal .indexOutOfBounds))
      | some g => copyOutLoop hosts rest (guests.set gIdx (syncGuest host g))

/-! ## The whole `sol_invoke_signed` (lines 92-269) -/

/-- The ambient host execution environment consumed by `sol_invoke_signed`:
the transaction-wide key table, the per-account permission checks, the
outcomes of the external collaborator calls (current instruction context,
last program key, per-seed-set address derivation, `prepare_instruction`),
and the effect of `process_instruction` on the host account table. -/
structure InvokeEnv where
  txKeys : List Pubkey
  pol : HostPolicy
  ctxErr : Option InstructionError
  callerKey : Except InstructionError Pubkey
  derivedSigners : List (Option Pubkey)
  prepared : Except InstructionError (List InstructionAccount)
  exec : List AccountSharedData → Except InstructionError (List AccountSharedData)

/-- Outcome of `sol_invoke_signed` together with the final guest account
views (in Rust these are mutated in place). -/
structure InvokeResult where
  status : Status
  guests : List AccountInfo

/-- `sol_invoke_signed`, transcribed stage by stage: resolve the instruction
context and the caller, derive the signer set (`.unwrap()` aborts on a
derivation failure), stage the instruction, run copy-in, invoke the
execution engine, then run copy-out over the recorded writable pairs. -/
def solInvokeSigned (env : InvokeEnv) (guests : List AccountInfo)
    (hosts : List AccountSharedData) : InvokeResult :=
  match env.ctxErr with
  | some e => ⟨(translateErr e).toStatus, guests⟩
  | none =>
    match env.callerKey with
    | .error e => ⟨(translateErr e).toStatus, guests⟩
    | .ok _caller =>
      if env.derivedSigners.any (fun s => s.isNone) then ⟨.fatal .seedDerivation, guests⟩
      else
        match env.prepared with
        | .error e => ⟨(translateErr e).toStatus, guests⟩
        | .ok instructionAccounts =>
          match (copyInLoop env.pol env.txKeys guests instructionAccounts hosts).2 with
          | .error f => ⟨f.toStatus, guests⟩
          | .ok (hosts1, recorded) =>
            match env.exec hosts1 with
            | .error e => ⟨(translateErr e).toStatus, guests⟩
            | .ok hosts2 =>
              match copyOutLoop hosts2 recorded guests with
              | (guests2, some f) => ⟨f.toStatus, guests2⟩
              | (guests2, none) => ⟨.ok, guests2⟩

/-! ## Sysvar accessor (lines 33-91) -/

/-- `solana_sdk::entrypoint::SUCCESS`. -/
def SUCCESS : Nat := 0

/-- `solana_sdk::program_error::UNSUPPORTED_SYSVAR` (builtin error 17 shifted
into the builtin bit range). -/
def UNSUPPORTED_SYSVAR : Nat := 17 * 2 ^ 32

structure Rent where
  val : Nat
deriving DecidableEq

structure Clock where
  val : Nat
deriving DecidableEq

structure EpochSchedule where
  val : Nat
deriving DecidableEq

structure EpochRewards where
  val : Nat
deriving DecidableEq

structure Fees where
  val : Nat
deriving DecidableEq

structure LastRestartSlot where
  val : Nat
deriving DecidableEq

/-- The host's sysvar cache (external collaborator): one optional slot per
supported sysvar kind. -/
structure SysvarCache where
  rent : Option Rent
  clock : Option Clock
  epochSchedule : Option EpochSchedule
  epochRewards : Option EpochRewards
  fees : Option Fees
  lastRestartSlot : Option LastRestartSlot
deriving DecidableEq

/-- A cache getter returns the cached value or `UnsupportedSysvar` on a
miss. -/
def SysvarCache.get_rent (c : SysvarCache) : Except InstructionError Rent :=
  match c.rent with
  | some v => .ok v
  | none => .error .UnsupportedSysvar

def SysvarCache.get_clock (c : SysvarCache) : Except InstructionError Clock :=
  match c.clock with
  | some v => .ok v
  | none => .error .UnsupportedSysvar

def SysvarCache.get_epoch_schedule (c : SysvarCache) :
    Except InstructionError EpochSchedule :=
  match c.epochSchedule with
  | some v => .ok v
  | none => .error .UnsupportedSysvar

def SysvarCache.get_epoch_rewards (c : SysvarCache) :
    Except InstructionError EpochRewards :=
  match c.epochRewards with
  | some v => .ok v
  | none => .error .UnsupportedSysvar

def SysvarCache.get_fees (c : SysvarCache) : Except InstructionError Fees :=
  match c.fees with
  | some v => .ok v
  | none => .error .UnsupportedSysvar

def SysvarCache.get_last_restart_slot (c : SysvarCache) :
    Except InstructionError LastRestartSlot :=
  match c.lastRestartSlot with
  | some v => .ok v
  | none => .error .UnsupportedSysvar

/-- `get_sysvar` (lines 33-44): on a cache hit write a clone of the sysvar
into the caller-provided destination buffer and return `SUCCESS`; on a miss
leave the buffer untouched and return `UNSUPPORTED_SYSVAR`. -/
def get_sysvar {T : Type} (sysvar : Except InstructionError T) (var_addr : Option T) :
    Option T × Nat :=
  match sysvar with
  | .ok sysvar_data => (some sysvar_data, SUCCESS)
  | .error _ => (var_addr, UNSUPPORTED_SYSVAR)

/-- `sol_get_rent_sysvar` (lines 56-58). -/
def sol_get_rent_sysvar (c : SysvarCache) (var_addr : Option Rent) : Option Rent × Nat :=
  get_sysvar c.get_rent var_addr

/-- `sol_get_clock_sysvar` (lines 59-64). -/
def sol_get_clock_sysvar (c : SysvarCache) (var_addr : Option Clock) :
    Option Clock × Nat :=
  get_sysvar c.get_clock var_addr

/-- `sol_get_epoch_schedule_sysvar` (lines 66-71). -/
def sol_get_epoch_schedule_sysvar (c : SysvarCache) (var_addr : Option EpochSchedule) :
    Option EpochSchedule × Nat :=
  get_sysvar c.get_epoch_schedule var_addr

/-- `sol_get_epoch_rewards_sysvar` (lines 73-78). -/
def sol_get_epoch_rewards_sysvar (c : SysvarCache) (var_addr : Option EpochRewards) :
    Option EpochRewards × Nat :=
  get_sysvar c.get_epoch_rewards var_addr

/-- `sol_get_fees_sysvar` (lines 79-82). -/
def sol_get_fees_sysvar (c : SysvarCache) (var_addr : Option Fees) : Option Fees × Nat :=
  get_sysvar c.get_fees var_addr

/-- `sol_get_last_restart_slot` (lines 84-91). -/
def sol_get_last_restart_slot (c : SysvarCache) (var_addr : Option LastRestartSlot) :
    Option LastRestartSlot × Nat :=
  get_sysvar c.get_last_restart_slot var_addr

/-! ## Return-data channel (lines 270-291) -/

/-- The transaction-scoped single return-data slot. -/
structure ReturnDataSlot where
  programId : Pubkey
  data : Bytes
deriving DecidableEq

/-- The slice of transaction-context state the return-data syscalls touch:
the active program stack (for `get_last_program_key`) and the slot. -/
structure TxCtxState where
  programStack : List Pubkey
  returnData : ReturnDataSlot
deriving DecidableEq

/-- `TransactionReturnData::default()`: default program id, empty bytes. -/
def defaultReturnData : ReturnDataSlot := ⟨0, []⟩

/-- `sol_set_return_data` (lines 279-291): determine the caller (the last
program on the active stack; the `.unwrap()` aborts when there is none) and
replace the slot with (caller, copy of data). -/
def sol_set_return_data (st : TxCtxState) (data : Bytes) : Option TxCtxState :=
  match st.programStack.getLast? with
  | none => none
  | some caller => some { st with returnData := ⟨caller, data⟩ }

/-- `sol_get_return_data` (lines 270-278): return a copy of the slot. -/
def sol_get_return_data (st : TxCtxState) : Option (Pubkey × Bytes) :=
  some (st.returnData.programId, st.returnData.data)

/-! ## Stub registry (lines 25-31) -/

/-- The process-wide syscall handler slot. -/
inductive Handler where
  | trident
  | other (n : Nat)
deriving DecidableEq

/-- Process state for the registry: the `std::sync::Once` flag plus the
handler installed via `set_syscall_stubs`. -/
structure StubsState where
  onceDone : Bool
  handler : Option Handler
deriving DecidableEq

def initialStubsState : StubsState := ⟨false, none⟩

/-- `solana_program::program_stubs::set_syscall_stubs` (external): replace
the process-wide handler. -/
def set_syscall_stubs (h : Handler) (st : StubsState) : StubsState :=
  { st with handler := some h }

/-- `set_stubs_v1` (lines 27-31): `ONCE.call_once(|| set_syscall_stubs(..))` —
install the trident handler the first time, do nothing ever after. -/
def set_stubs_v1 (st : StubsState) : StubsState :=
  if st.onceDone then st
  else { set_syscall_stubs .trident st with onceDone := true }

/-! ## Theorems -/

/-- Claim C3: the error translator `try_from_custom` is total over the fixed
enumeration of known host error kinds: every listed `InstructionError`
variant maps to `Ok` with the corresponding `ProgramError` variant, the
`Custom` numeric payload and the `BorshIoError` message payload are
preserved, and every variant outside the enumeration yields `Err` with the
unmapped error itself — the translator never invents a guest error. -/
theorem try_from_custom_total :
    (∀ e, isListed e = true → ∃ p, ProgramError.try_from_custom e = .ok p) ∧
    (∀ e, isListed e = false → ProgramError.try_from_custom e = .error e) ∧
    (∀ n, ProgramError.try_from_custom (.Custom n) = .ok (.Custom n)) ∧
    (∀ s, ProgramError.try_from_custom (.BorshIoError s) = .ok (.BorshIoError s)) ∧
    ProgramError.try_from_custom .InvalidArgument = .ok .InvalidArgument ∧
    ProgramError.try_from_custom .InvalidInstructionData = .ok .InvalidInstructionData ∧
    ProgramError.try_from_custom .InvalidAccountData = .ok .InvalidAccountData ∧
    ProgramError.try_from_custom .AccountDataTooSmall = .ok .AccountDataTooSmall ∧
    ProgramError.try_from_custom .InsufficientFunds = .ok .InsufficientFunds ∧
    ProgramError.try_from_custom .IncorrectProgramId = .ok .IncorrectProgramId ∧
    ProgramError.try_from_custom .MissingRequiredSignature = .ok .MissingRequiredSignature ∧
    ProgramError.try_from_custom .AccountAlreadyInitialized = .ok .AccountAlreadyInitialized ∧
    ProgramError.try_from_custom .UninitializedAccount = .ok .UninitializedAccount ∧
    ProgramError.try_from_custom .NotEnoughAccountKeys = .ok .NotEnoughAccountKeys ∧
    ProgramError.try_from_custom .AccountBorrowFailed = .ok .AccountBorrowFailed ∧
    ProgramError.try_from_custom .MaxSeedLengthExceeded = .ok .MaxSeedLengthExceeded ∧
    ProgramError.try_from_custom .InvalidSeeds = .ok .InvalidSeeds ∧
    ProgramError.try_from_custom .AccountNotRentExempt = .ok .AccountNotRentExempt ∧
    ProgramError.try_from_custom .UnsupportedSysvar = .ok .UnsupportedSysvar ∧
    ProgramError.try_from_custom .IllegalOwner = .ok .IllegalOwner ∧
    ProgramError.try_from_custom .MaxAccountsDataAllocationsExceeded =
      .ok .MaxAccountsDataAllocationsExceeded ∧
    ProgramError.try_from_custom .InvalidRealloc = .ok .InvalidRealloc ∧
    ProgramError.try_from_custom .MaxInstructionTraceLengthExceeded =
      .ok .MaxInstructionTraceLengthExceeded ∧
    ProgramError.try_from_custom .BuiltinProgramsMustConsumeComputeUnits =
      .ok .BuiltinProgramsMustConsumeComputeUnits ∧
    ProgramError.try_from_custom .InvalidAccountOwner = .ok .InvalidAccountOwner ∧
    ProgramError.try_from_custom .ArithmeticOverflow = .ok .ArithmeticOverflow := by
  refine ⟨?_, ?_, fun n => rfl, fun s => rfl, rfl, rfl, rfl, rfl, rfl, rfl, rfl, rfl,
    rfl, rfl, rfl, rfl, rfl, rfl, rfl, rfl, rfl, rfl, rfl, rfl, rfl, rfl⟩
  · intro e h
    cases e <;> first | exact ⟨_, rfl⟩ | simp [isListed] at h
  · intro e h
    cases e <;> first | rfl | simp [isListed] at h

/-- Witness for C3: the unlisted `GenericError` is reported unmapped and the
`Custom` payload survives translation. -/
theorem try_from_custom_total_witness :
    ProgramError.try_from_custom .GenericError = .error .GenericError ∧
    ProgramError.try_from_custom (.Custom 7) = .ok (.Custom 7) :=
  ⟨try_from_custom_total.2.1 .GenericError rfl, try_from_custom_total.2.2.1 7⟩

/-- Claim C7: the return-data channel is a single last-writer-wins slot:
a set under caller `P` overwrites the slot with `(P, bytes)` (also for empty
`bytes`), a get returns exactly the slot contents without modifying anything,
and on the never-set initial slot a get returns the default program id with
empty bytes. -/
theorem return_data_spec :
    (∀ st data caller, st.programStack.getLast? = some caller →
      ∃ st2, sol_set_return_data st data = some st2 ∧
        st2.returnData = ⟨caller, data⟩ ∧
        sol_get_return_data st2 = some (caller, data)) ∧
    (∀ st, sol_get_return_data st = some (st.returnData.programId, st.returnData.data)) ∧
    (∀ stack, sol_get_return_data ⟨stack, defaultReturnData⟩ = some (0, [])) := by
  refine ⟨?_, fun st => rfl, fun stack => rfl⟩
  intro st data caller h
  exact ⟨{ st with returnData := ⟨caller, data⟩ }, by simp [sol_set_return_data, h], rfl, rfl⟩

/-- Witness for C7: setting `[1, 2, 3]` under program `9` and reading it
back. -/
theorem return_data_spec_witness :
    ∃ st2, sol_set_return_data ⟨[9], defaultReturnData⟩ [1, 2, 3] = some st2 ∧
      st2.returnData = ⟨9, [1, 2, 3]⟩ ∧
      sol_get_return_data st2 = some (9, [1, 2, 3]) :=
  return_data_spec.1 ⟨[9], defaultReturnData⟩ [1, 2, 3] 9 rfl

/-- Claim C9: installation of the stub handler is idempotent and
exactly-once: the first call installs the trident handler, installing twice
equals installing once, a call after the `Once` flag is set changes nothing,
and any `N ≥ 1` calls from the initial state equal a single call. -/
theorem set_stubs_v1_idempotent :
    ((set_stubs_v1 initialStubsState).handler = some .trident) ∧
    (∀ st, set_stubs_v1 (set_stubs_v1 st) = set_stubs_v1 st) ∧
    (∀ st, st.onceDone = true → set_stubs_v1 st = st) ∧
    (∀ n, 1 ≤ n → set_stubs_v1^[n] initialStubsState = set_stubs_v1 initialStubsState) := by
  refine ⟨rfl, ?_, ?_, ?_⟩
  · intro st
    cases h : st.onceDone <;> simp [set_stubs_v1, set_syscall_stubs, h]
  · intro st h
    simp [set_stubs_v1, h]
  · intro n hn
    obtain ⟨m, rfl⟩ : ∃ m, n = m + 1 := ⟨n - 1, by omega⟩
    rw [Function.iterate_succ_apply]
    exact Function.iterate_fixed (by decide) m

/-- Witness for C9: three installs from the initial state equal one. -/
theorem set_stubs_v1_idempotent_witness :
    set_stubs_v1^[3] initialStubsState = set_stubs_v1 initialStubsState :=
  set_stubs_v1_idempotent.2.2.2 3 (by omega)

/-- Claim C8: every sysvar getter writes a value-copy into the destination
buffer and returns `SUCCESS` on a cache hit, and leaves the buffer untouched
while returning `UNSUPPORTED_SYSVAR` on a cache miss; the accessors are total
functions, never aborting. -/
theorem sysvar_getters_spec :
    (∀ c buf v, c.rent = some v → sol_get_rent_sysvar c buf = (some v, SUCCESS)) ∧
    (∀ c buf, c.rent = none → sol_get_rent_sysvar c buf = (buf, UNSUPPORTED_SYSVAR)) ∧
    (∀ c buf v, c.clock = some v → sol_get_clock_sysvar c buf = (some v, SUCCESS)) ∧
    (∀ c buf, c.clock = none → sol_get_clock_sysvar c buf = (buf, UNSUPPORTED_SYSVAR)) ∧
    (∀ c buf v, c.epochSchedule = some v →
      sol_get_epoch_schedule_sysvar c buf = (some v, SUCCESS)) ∧
    (∀ c buf, c.epochSchedule = none →
      sol_get_epoch_schedule_sysvar c buf = (buf, UNSUPPORTED_SYSVAR)) ∧
    (∀ c buf v, c.epochRewards = some v →
      sol_get_epoch_rewards_sysvar c buf = (some v, SUCCESS)) ∧
    (∀ c buf, c.epochRewards = none →
      sol_get_epoch_rewards_sysvar c buf = (buf, UNSUPPORTED_SYSVAR)) ∧
    (∀ c buf v, c.fees = some v → sol_get_fees_sysvar c buf = (some v, SUCCESS)) ∧
    (∀ c buf, c.fees = none → sol_get_fees_sysvar c buf = (buf, UNSUPPORTED_SYSVAR)) ∧
    (∀ c buf v, c.lastRestartSlot = some v →
      sol_get_last_restart_slot c buf = (some v, SUCCESS)) ∧
    (∀ c buf, c.lastRestartSlot = none →
      sol_get_last_restart_slot c buf = (buf, UNSUPPORTED_SYSVAR)) := by
  refine ⟨?_, ?_, ?_, ?_, ?_, ?_, ?_, ?_, ?_, ?_, ?_, ?_⟩
  · intro c buf v h
    simp [sol_get_rent_sysvar, SysvarCache.get_rent, get_sysvar, h]
  · intro c buf h
    simp [sol_get_rent_sysvar, SysvarCache.get_rent, get_sysvar, h]
  · intro c buf v h
    simp [sol_get_clock_sysvar, SysvarCache.get_clock, get_sysvar, h]
  · intro c buf h
    simp [sol_get_clock_sysvar, SysvarCache.get_clock, get_sysvar, h]
  · intro c buf v h
    simp [sol_get_epoch_schedule_sysvar, SysvarCache.get_epoch_schedule, get_sysvar, h]
  · intro c buf h
    simp [sol_get_epoch_schedule_sysvar, SysvarCache.get_epoch_schedule, get_sysvar, h]
  · intro c buf v h
    simp [sol_get_epoch_rewards_sysvar, SysvarCache.get_epoch_rewards, get_sysvar, h]
  · intro c buf h
    simp [sol_get_epoch_rewards_sysvar, SysvarCache.get_epoch_rewards, get_sysvar, h]
  · intro c buf v h
    simp [sol_get_fees_sysvar, SysvarCache.get_fees, get_sysvar, h]
  · intro c buf h
    simp [sol_get_fees_sysvar, SysvarCache.get_fees, get_sysvar, h]
  · intro c buf v h
    simp [sol_get_last_restart_slot, SysvarCache.get_last_restart_slot, get_sysvar, h]
  · intro c buf h
    simp [sol_get_last_restart_slot, SysvarCache.get_last_restart_slot, get_sysvar, h]

/-- Witness for C8: a rent hit fills the buffer with the cached value and a
rent miss leaves the caller's buffer as it was. -/
theorem sysvar_getters_spec_witness :
    sol_get_rent_sysvar ⟨some ⟨7⟩, none, none, none, none, none⟩ none =
      (some ⟨7⟩, SUCCESS) ∧
    sol_get_rent_sysvar ⟨none, none, none, none, none, none⟩ (some ⟨9⟩) =
      (some ⟨9⟩, UNSUPPORTED_SYSVAR) :=
  ⟨sysvar_getters_spec.1 ⟨some ⟨7⟩, none, none, none, none, none⟩ none ⟨7⟩ rfl,
   sysvar_getters_spec.2.1 ⟨none, none, none, none, none, none⟩ (some ⟨9⟩) rfl⟩

/-! ## Copy-in ordering (C1) -/

theorem lamportsStep_events (pol : HostPolicy) (idx : Nat) (host : AccountSharedData)
    (g : AccountInfo) :
    ∀ ev ∈ (lamportsStep pol idx host g).1, ev = .setLamports idx g.lamports := by
  unfold lamportsStep
  split
  · simp
  · split <;> simp

theorem dataStep_events (pol : HostPolicy) (idx : Nat) (host : AccountSharedData)
    (g : AccountInfo) :
    ∀ ev ∈ (dataStep pol idx host g).1, ev = .setData idx g.data := by
  unfold dataStep
  split
  · simp
  · split <;> simp

theorem ownerStep_events (pol : HostPolicy) (idx : Nat) (host : AccountSharedData)
    (g : AccountInfo) :
    ∀ ev ∈ (ownerStep pol idx host g).1, ev = .setOwner idx g.owner := by
  unfold ownerStep
  split
  · simp
  · split <;> simp

/-- Claim C1: during copy-in, for each account referenced by the expanded
instruction-account list, the host write trace splits into a prefix with no
owner write followed by a suffix of only owner writes — the set-owner step
runs only after the set-lamports and set-data steps — and every write in the
trace targets that same account (its position in the caller's list). -/
theorem copyInAccount_owner_sync_last (pol : HostPolicy) (txKeys : List Pubkey)
    (guests : List AccountInfo) (hosts : List AccountSharedData)
    (ia : InstructionAccount) :
    ∃ pre post,
      (copyInAccount pol txKeys guests hosts ia).1 = pre ++ post ∧
      (∀ ev ∈ pre, ev.isOwner = false) ∧
      (∀ ev ∈ post, ev.isOwner = true) ∧
      (∀ ev ∈ pre ++ post, ev.account = ia.index_in_caller) := by
  rcases h0 : txKeys[ia.index_in_transaction]? with _ | key
  · exact ⟨[], [], by simp [copyInAccount, h0], by simp, by simp, by simp⟩
  rcases h1 : findAccountInfo guests key with _ | ⟨gIdx, g⟩
  · exact ⟨[], [], by simp [copyInAccount, h0, h1], by simp, by simp, by simp⟩
  rcases h2 : hosts[ia.index_in_caller]? with _ | host0
  · exact ⟨[], [], by simp [copyInAccount, h0, h1, h2], by simp, by simp, by simp⟩
  have eL := lamportsStep_events pol ia.index_in_caller host0 g
  rcases h3 : lamportsStep pol ia.index_in_caller host0 g with ⟨trL, rL⟩
  rw [h3] at eL
  rcases rL with f | host1
  · refine ⟨trL, [], by simp [copyInAccount, h0, h1, h2, h3], ?_, by simp, ?_⟩
    · intro ev hev
      rw [eL ev hev]
      rfl
    · intro ev hev
      rw [List.append_nil] at hev
      rw [eL ev hev]
      rfl
  have eD := dataStep_events pol ia.index_in_caller host1 g
  rcases h4 : dataStep pol ia.index_in_caller host1 g with ⟨trD, rD⟩
  rw [h4] at eD
  rcases rD with f | host2
  · refine ⟨trL ++ trD, [], by simp [copyInAccount, h0, h1, h2, h3, h4], ?_, by simp, ?_⟩
    · intro ev hev
      rcases List.mem_append.1 hev with h | h
      · rw [eL ev h]; rfl
      · rw [eD ev h]; rfl
    · intro ev hev
      rw [List.append_nil] at hev
      rcases List.mem_append.1 hev with h | h
      · rw [eL ev h]; rfl
      · rw [eD ev h]; rfl
  have eO := ownerStep_events pol ia.index_in_caller host2 g
  rcases h5 : ownerStep pol ia.index_in_caller host2 g with ⟨trO, rO⟩
  rw [h5] at eO
  have htr : (copyInAccount pol txKeys guests hosts ia).1 = trL ++ trD ++ trO := by
    rcases rO with f | host3 <;> simp [copyInAccount, h0, h1, h2, h3, h4, h5]
  refine ⟨trL ++ trD, trO, htr, ?_, ?_, ?_⟩
  · intro ev hev
    rcases List.mem_append.1 hev with h | h
    · rw [eL ev h]; rfl
    · rw [eD ev h]; rfl
  · intro ev hev
    rw [eO ev hev]
    rfl
  · intro ev hev
    rcases List.mem_append.1 hev with h | h
    · rcases List.mem_append.1 h with h2 | h2
      · rw [eL ev h2]; rfl
      · rw [eD ev h2]; rfl
    · rw [eO ev h]; rfl

/-- Witness for C1: a concrete copy-in step where all three values differ,
so every write runs; the trace decomposes as required. -/
theorem copyInAccount_owner_sync_last_witness :
    ∃ pre post,
      (copyInAccount ⟨fun _ _ => none, fun _ _ => none, fun _ => none, fun _ _ => none⟩
        [5] [⟨5, 1, 2, [9], true, false⟩] [⟨3, 4, [8]⟩] ⟨0, 0, true⟩).1 = pre ++ post ∧
      (∀ ev ∈ pre, ev.isOwner = false) ∧
      (∀ ev ∈ post, ev.isOwner = true) ∧
      (∀ ev ∈ pre ++ post, ev.account = 0) :=
  copyInAccount_owner_sync_last
    ⟨fun _ _ => none, fun _ _ => none, fun _ => none, fun _ _ => none⟩
    [5] [⟨5, 1, 2, [9], true, false⟩] [⟨3, 4, [8]⟩] ⟨0, 0, true⟩

/-! ## The read-only data guard (C2) -/

/-- A permissive host policy for concrete instances: every host check
succeeds. -/
def polAllow : HostPolicy :=
  ⟨fun _ _ => none, fun _ _ => none, fun _ => none, fun _ _ => none⟩

/-- A host policy whose data-change check always rejects, for concrete
instances exercising the read-only data guard. -/
def polFrozenData : HostPolicy :=
  ⟨fun _ _ => none, fun _ _ => none, fun _ => some .ReadonlyDataModified,
   fun _ _ => none⟩

/-- Claim C2: during copy-in, when the host forbids the data change
(`can_data_be_resized` or `can_data_be_changed` rejects) and the guest bytes
differ from the host bytes, the account step aborts fatally (a panic, not a
guest-visible error); when the host forbids the change but the bytes are
equal, the step proceeds to the owner synchronization with no data error and
no data write. -/
theorem copyIn_readonly_data_guard (pol : HostPolicy) (txKeys : List Pubkey)
    (guests : List AccountInfo) (hosts : List AccountSharedData)
    (ia : InstructionAccount) (key : Pubkey) (gIdx : Nat) (g : AccountInfo)
    (host0 host1 : AccountSharedData) (trL : List SyncEvent) (e : InstructionError)
    (h0 : txKeys[ia.index_in_transaction]? = some key)
    (h1 : findAccountInfo guests key = some (gIdx, g))
    (h2 : hosts[ia.index_in_caller]? = some host0)
    (h3 : lamportsStep pol ia.index_in_caller host0 g = (trL, .ok host1))
    (h4 : dataChecks pol host1 g.data.length = some e) :
    (host1.data ≠ g.data →
      (copyInAccount pol txKeys guests hosts ia).2 =
        .error (.fatal (.dataViolation e))) ∧
    (host1.data = g.data →
      (copyInAccount pol txKeys guests hosts ia).2 =
        (match (ownerStep pol ia.index_in_caller host1 g).2 with
         | .error f => .error f
         | .ok host3 =>
             .ok (host3,
                  if ia.is_writable then some (ia.index_in_caller, gIdx) else none))) := by
  constructor
  · intro hne
    simp [copyInAccount, h0, h1, h2, h3, dataStep, h4, hne]
  · intro heq
    rcases h5 : ownerStep pol ia.index_in_caller host1 g with ⟨trO, rO⟩
    rcases rO with f | host3 <;>
      simp [copyInAccount, h0, h1, h2, h3, dataStep, h4, heq, h5]

/-- Witness for C2: a host that rejects data changes panics on differing
bytes. -/
theorem copyIn_readonly_data_guard_witness :
    (copyInAccount polFrozenData [5] [⟨5, 10, 1, [1], true, false⟩] [⟨10, 1, [2]⟩]
      ⟨0, 0, true⟩).2 =
      .error (.fatal (.dataViolation .ReadonlyDataModified)) :=
  (copyIn_readonly_data_guard polFrozenData [5] [⟨5, 10, 1, [1], true, false⟩]
    [⟨10, 1, [2]⟩] ⟨0, 0, true⟩ 5 0 ⟨5, 10, 1, [1], true, false⟩ ⟨10, 1, [2]⟩
    ⟨10, 1, [2]⟩ [] .ReadonlyDataModified rfl rfl rfl rfl rfl).1 (by decide)

/-! ## Copy-out synchronization (C4) -/

theorem listResize_length (l : Bytes) (n : Nat) : (listResize l n).length = n := by
  unfold listResize
  split
  · simp
    omega
  · simp
    omega

/-- The net effect of the per-pair copy-out body: the guest view keeps its
key and flags and takes the host's lamports, owner and data. -/
theorem syncGuest_spec (host : AccountSharedData) (g : AccountInfo) :
    syncGuest host g =
      { g with lamports := host.lamports, owner := host.owner, data := host.data } := by
  unfold syncGuest cloneFromSlice
  by_cases ho : g.owner = host.owner <;>
    by_cases hd : g.data.length = host.data.length <;>
      simp [ho, hd, listResize_length]

/-- The copy-out loop never touches a guest index that no recorded pair
names. -/
theorem copyOutLoop_get_of_not_mem (hosts : List AccountSharedData)
    (pairs : List (Nat × Nat)) (guests : List AccountInfo) (j : Nat)
    (h : j ∉ pairs.map Prod.snd) :
    ((copyOutLoop hosts pairs guests).1)[j]? = guests[j]? := by
  induction pairs generalizing guests with
  | nil => rfl
  | cons p rest ih =>
    obtain ⟨hIdx, gIdx⟩ := p
    simp only [List.map_cons, List.mem_cons, not_or] at h
    obtain ⟨hne, hrest⟩ := h
    rcases hh : hosts[hIdx]? with _ | host
    · simp [copyOutLoop, hh]
    · rcases hg : guests[gIdx]? with _ | g
      · simp [copyOutLoop, hh, hg]
      · have hstep : copyOutLoop hosts ((hIdx, gIdx) :: rest) guests =
            copyOutLoop hosts rest (guests.set gIdx (syncGuest host g)) := by
          simp [copyOutLoop, hh, hg]
        rw [hstep, ih _ hrest, List.getElem?_set_ne (Ne.symm hne)]

/-- Claim C4: for every recorded writable pair, processed in recorded order,
the copy-out loop overwrites the guest view at the recorded index with the
host's post-execution lamports, owner, and data (the data buffer resized to
the host length); the key and flags are untouched. -/
theorem copyOut_writable_sync (hosts : List AccountSharedData)
    (guests : List AccountInfo) (pairs : List (Nat × Nat))
    (hnodup : (pairs.map Prod.snd).Nodup)
    (hall : ∀ q ∈ pairs, q.1 < hosts.length ∧ q.2 < guests.length) :
    ∀ p ∈ pairs, ∀ host g, hosts[p.1]? = some host → guests[p.2]? = some g →
      ((copyOutLoop hosts pairs guests).1)[p.2]? =
        some { g with lamports := host.lamports, owner := host.owner,
                      data := host.data } := by
  induction pairs generalizing guests with
  | nil =>
    intro p hp
    exact absurd hp (List.not_mem_nil p)
  | cons q rest ih =>
    intro p hp host g hhost hguest
    obtain ⟨qh, qg⟩ := q
    simp only [List.map_cons, List.nodup_cons] at hnodup
    obtain ⟨hq_not, hnodup_rest⟩ := hnodup
    obtain ⟨hostq, hhq⟩ : ∃ a, hosts[qh]? = some a := by
      have := (hall (qh, qg) (List.mem_cons_self _ _)).1
      exact ⟨hosts[qh], List.getElem?_eq_getElem this⟩
    obtain ⟨gq, hgq⟩ : ∃ a, guests[qg]? = some a := by
      have := (hall (qh, qg) (List.mem_cons_self _ _)).2
      exact ⟨guests[qg], List.getElem?_eq_getElem this⟩
    have hstep : copyOutLoop hosts ((qh, qg) :: rest) guests =
        copyOutLoop hosts rest (guests.set qg (syncGuest hostq gq)) := by
      simp [copyOutLoop, hhq, hgq]
    rcases List.mem_cons.1 hp with hphead | hp_rest
    · subst hphead
      have hhost2 : hosts[qh]? = some host := hhost
      have hguest2 : guests[qg]? = some g := hguest
      have hEq1 : hostq = host := Option.some_inj.1 (hhq.symm.trans hhost2)
      have hEq2 : gq = g := Option.some_inj.1 (hgq.symm.trans hguest2)
      subst hEq1
      subst hEq2
      obtain ⟨hlt, _⟩ := List.getElem?_eq_some.1 hguest2
      show ((copyOutLoop hosts ((qh, qg) :: rest) guests).1)[qg]? =
        some { gq with lamports := hostq.lamports, owner := hostq.owner,
                       data := hostq.data }
      rw [hstep,
        copyOutLoop_get_of_not_mem hosts rest (guests.set qg (syncGuest hostq gq)) qg hq_not,
        List.getElem?_set_eq_of_lt _ hlt, syncGuest_spec]
    · have hne : qg ≠ p.2 := by
        intro hEq
        exact hq_not (hEq ▸ List.mem_map_of_mem Prod.snd hp_rest)
      have hall2 : ∀ r ∈ rest, r.1 < hosts.length ∧
          r.2 < (guests.set qg (syncGuest hostq gq)).length := by
        intro r hr
        have := hall r (List.mem_cons_of_mem _ hr)
        simpa [List.length_set] using this
      have hguest2 : (guests.set qg (syncGuest hostq gq))[p.2]? = some g := by
        rw [List.getElem?_set_ne hne]
        exact hguest
      rw [hstep]
      exact ih _ hnodup_rest hall2 p hp_rest host g hhost hguest2

/-- Witness for C4 (the spec's writable-sync scenario): guest lamports 100,
4 bytes of 0xAA, owner 1; host lamports 50, 8 bytes of 0xBB, owner 2; after
copy-out the guest shows the host values with the buffer resized to 8. -/
theorem copyOut_writable_sync_witness :
    ((copyOutLoop [⟨50, 2, [187, 187, 187, 187, 187, 187, 187, 187]⟩] [(0, 0)]
      [⟨1, 100, 1, [170, 170, 170, 170], true, false⟩]).1)[0]? =
      some ⟨1, 50, 2, [187, 187, 187, 187, 187, 187, 187, 187], true, false⟩ :=
  copyOut_writable_sync [⟨50, 2, [187, 187, 187, 187, 187, 187, 187, 187]⟩]
    [⟨1, 100, 1, [170, 170, 170, 170], true, false⟩] [(0, 0)] (by decide)
    (by decide) (0, 0) (by decide) ⟨50, 2, [187, 187, 187, 187, 187, 187, 187, 187]⟩
    ⟨1, 100, 1, [170, 170, 170, 170], true, false⟩ rfl rfl

/-! ## Read-only frame property (C5) -/

/-- A non-writable instruction account is never recorded for copy-out. -/
theorem copyInAccount_record_none (pol : HostPolicy) (txKeys : List Pubkey)
    (guests : List AccountInfo) (hosts : List AccountSharedData)
    (ia : InstructionAccount) (hw : ia.is_writable = false) :
    ∀ host2 rec2,
      (copyInAccount pol txKeys guests hosts ia).2 = .ok (host2, rec2) →
      rec2 = none := by
  intro host2 rec2 h
  unfold copyInAccount at h
  repeat' split at h
  all_goals simp_all

/-- With no writable instruction account, the copy-in loop records nothing. -/
theorem copyInLoop_record_nil (pol : HostPolicy) (txKeys : List Pubkey)
    (guests : List AccountInfo) (ias : List InstructionAccount)
    (hw : ∀ ia ∈ ias, ia.is_writable = false) :
    ∀ hosts hostsF recs,
      (copyInLoop pol txKeys guests ias hosts).2 = .ok (hostsF, recs) →
      recs = [] := by
  induction ias with
  | nil =>
    intro hosts hostsF recs h
    simp [copyInLoop] at h
    exact h.2
  | cons ia rest ih =>
    intro hosts hostsF recs h
    have hia := hw ia (List.mem_cons_self ia rest)
    have hrest := fun a ha => hw a (List.mem_cons_of_mem ia ha)
    rcases hc : copyInAccount pol txKeys guests hosts ia with ⟨tr, rc⟩
    rcases rc with f | ⟨host2, rec2⟩
    · simp [copyInLoop, hc] at h
    · have hrec : rec2 = none :=
        copyInAccount_record_none pol txKeys guests hosts ia hia host2 rec2
          (by rw [hc])
      subst hrec
      rcases hl : copyInLoop pol txKeys guests rest (hosts.set ia.index_in_caller host2)
          with ⟨tr2, rl⟩
      rcases rl with f | ⟨hF, recs2⟩
      · simp [copyInLoop, hc, hl] at h
      · simp [copyInLoop, hc, hl] at h
        have hnil := ih hrest _ _ _ (by rw [hl])
        simp_all

/-- Claim C5: only writable accounts are recorded for copy-out, so an
invocation whose expanded instruction-account list contains no writable
account leaves every guest account view byte-for-byte unchanged, whatever
the host did. -/
theorem invoke_readonly_frame (env : InvokeEnv) (guests : List AccountInfo)
    (hosts : List AccountSharedData)
    (hw : ∀ l, env.prepared = .ok l → ∀ ia ∈ l, ia.is_writable = false) :
    (solInvokeSigned env guests hosts).guests = guests := by
  rcases h1 : env.ctxErr with _ | e
  · rcases h2 : env.callerKey with e | c
    · simp [solInvokeSigned, h1, h2]
    · by_cases h3 : (env.derivedSigners.any fun s => s.isNone) = true
      · simp [solInvokeSigned, h1, h2, h3]
      · rcases h4 : env.prepared with e | ias
        · simp [solInvokeSigned, h1, h2, h3, h4]
        · rcases h5 : (copyInLoop env.pol env.txKeys guests ias hosts).2
              with f | ⟨hosts1, recorded⟩
          · simp [solInvokeSigned, h1, h2, h3, h4, h5]
          · have hrec : recorded = [] :=
              copyInLoop_record_nil env.pol env.txKeys guests ias (hw ias h4)
                hosts hosts1 recorded h5
            subst hrec
            rcases h6 : env.exec hosts1 with e | hosts2
            · simp [solInvokeSigned, h1, h2, h3, h4, h5, h6]
            · simp [solInvokeSigned, h1, h2, h3, h4, h5, h6, copyOutLoop]
  · simp [solInvokeSigned, h1]

/-- Witness for C5: a nested call whose single account is read-only returns
the guest views unchanged even though the host account differs. -/
theorem invoke_readonly_frame_witness :
    (solInvokeSigned
      ⟨[5], polAllow, none, .ok 9, [], .ok [⟨0, 0, false⟩], fun h => .ok h⟩
      [⟨5, 10, 1, [1], false, false⟩] [⟨77, 2, [3]⟩]).guests =
    [⟨5, 10, 1, [1], false, false⟩] :=
  invoke_readonly_frame _ _ _ (by
    rintro l hl ia hia
    injection hl with hl
    subst hl
    rcases List.mem_singleton.1 hia with rfl
    rfl)

/-! ## Missing guest account (C6) -/

/-- `true` exactly on the guest-visible error outcomes (`Status.err`). -/
def Status.isGuestErr : Status → Bool
  | .err _ => true
  | _ => false

/-- Counterexample for claim C6 as stated: when the first staged account's
key has no matching guest account view, `sol_invoke_signed` does not return
the condition as a guest-visible call failure — the `MissingAccount` error
has no entry in the translation table, so the layer aborts (panics). -/
theorem invoke_missing_account_cx :
    (solInvokeSigned
        ⟨[5], polAllow, none, .ok 9, [], .ok [⟨0, 0, true⟩], fun h => .ok h⟩
        [] [⟨10, 3, []⟩]).status = .fatal (.unmapped .MissingAccount) ∧
    ((solInvokeSigned
        ⟨[5], polAllow, none, .ok 9, [], .ok [⟨0, 0, true⟩], fun h => .ok h⟩
        [] [⟨10, 3, []⟩]).status).isGuestErr = false :=
  ⟨rfl, rfl⟩

/-- Claim C6 (amended): an account of the expanded instruction-account list
with no matching guest account view is a fatal missing-account condition:
`MissingAccount` has no entry in the translation table, so
`sol_invoke_signed` aborts (panics with the unmapped error) rather than
returning a guest-visible error or continuing; the guest views are left
untouched. -/
theorem invoke_missing_account_aborts (env : InvokeEnv) (guests : List AccountInfo)
    (hosts : List AccountSharedData) (ia : InstructionAccount)
    (rest : List InstructionAccount) (key : Pubkey)
    (h1 : env.ctxErr = none)
    (h2 : ∃ c, env.callerKey = .ok c)
    (h3 : (env.derivedSigners.any fun s => s.isNone) = false)
    (h4 : env.prepared = .ok (ia :: rest))
    (h5 : env.txKeys[ia.index_in_transaction]? = some key)
    (h6 : findAccountInfo guests key = none) :
    solInvokeSigned env guests hosts = ⟨.fatal (.unmapped .MissingAccount), guests⟩ := by
  obtain ⟨c, h2⟩ := h2
  have hstep : (copyInLoop env.pol env.txKeys guests (ia :: rest) hosts).2 =
      .error (.fatal (.unmapped .MissingAccount)) := by
    simp [copyInLoop, copyInAccount, h5, h6, translateErr, ProgramError.try_from_custom]
  simp [solInvokeSigned, h1, h2, h3, h4, hstep, Failure.toStatus]

/-- Witness for the amended C6: a concrete invocation with an empty guest
view list aborts with the unmapped `MissingAccount`. -/
theorem invoke_missing_account_aborts_witness :
    solInvokeSigned
        ⟨[6], polAllow, none, .ok 9, [], .ok [⟨0, 1, true⟩], fun h => .ok h⟩
        [⟨4, 1, 1, [], true, false⟩] [⟨10, 3, []⟩, ⟨11, 3, []⟩] =
      ⟨.fatal (.unmapped .MissingAccount), [⟨4, 1, 1, [], true, false⟩]⟩ :=
  invoke_missing_account_aborts
    ⟨[6], polAllow, none, .ok 9, [], .ok [⟨0, 1, true⟩], fun h => .ok h⟩
    [⟨4, 1, 1, [], true, false⟩] [⟨10, 3, []⟩, ⟨11, 3, []⟩] ⟨0, 1, true⟩ [] 6
    rfl ⟨9, rfl⟩ rfl rfl rfl (by decide)

/-! ## Execution failure skips copy-out (C10) -/

/-- Claim C10: when the host's instruction-processing entry point reports an
error whose kind is in the translation table, `sol_invoke_signed` returns the
translated guest error and the copy-out phase never runs — the guest account
views are exactly the views passed in. -/
theorem invoke_exec_error_skips_copy_out (env : InvokeEnv)
    (guests : List AccountInfo) (hosts : List AccountSharedData)
    (ias : List InstructionAccount) (hosts1 : List AccountSharedData)
    (recorded : List (Nat × Nat)) (e : InstructionError) (p : ProgramError)
    (h1 : env.ctxErr = none)
    (h2 : ∃ c, env.callerKey = .ok c)
    (h3 : (env.derivedSigners.any fun s => s.isNone) = false)
    (h4 : env.prepared = .ok ias)
    (h5 : (copyInLoop env.pol env.txKeys guests ias hosts).2 = .ok (hosts1, recorded))
    (h6 : env.exec hosts1 = .error e)
    (h7 : ProgramError.try_from_custom e = .ok p) :
    solInvokeSigned env guests hosts = ⟨.err p, guests⟩ := by
  obtain ⟨c, h2⟩ := h2
  simp [solInvokeSigned, h1, h2, h3, h4, h5, h6, translateErr, h7, Failure.toStatus]

/-- Witness for C10: an execution engine failing with `Custom 42` surfaces as
the guest error `Custom 42` with the guest views untouched. -/
theorem invoke_exec_error_skips_copy_out_witness :
    solInvokeSigned
        ⟨[5], polAllow, none, .ok 9, [], .ok [], fun _ => .error (.Custom 42)⟩
        [⟨5, 10, 1, [1], true, false⟩] [⟨10, 1, [1]⟩] =
      ⟨.err (.Custom 42), [⟨5, 10, 1, [1], true, false⟩]⟩ :=
  invoke_exec_error_skips_copy_out
    ⟨[5], polAllow, none, .ok 9, [], .ok [], fun _ => .error (.Custom 42)⟩
    [⟨5, 10, 1, [1], true, false⟩] [⟨10, 1, [1]⟩] [] [⟨10, 1, [1]⟩] []
    (.Custom 42) (.Custom 42) rfl ⟨9, rfl⟩ rfl rfl rfl rfl rfl

end Trident
